import Mathlib

/-!  Shallow embedding of the melonJS `me.video` module (`src/video/video.js`):
the scaling computation inside `api.onresize`, the deferred-resize
coordination (`deferResizeId` bookkeeping), `api.scale`, `api.setMaxSize`,
the scale-method normalization performed by `api.init`, and the renderer
auto-detection fallback (`autoDetectRenderer` plus the renderer `switch` and
surrounding `try`/`catch` in `api.init`).

JavaScript numbers are modelled exactly, as rationals extended with the two
infinities and NaN; the operations below follow the ECMAScript semantics of
`+`, `*`, `/`, `<`, `Math.min`, `Math.floor`, `ToInt32` (for the `~~`
operator) and boolean coercion, restricted to this carrier.  The `+0` versus
`-0` distinction is dropped: both are represented by `num 0` (they are
indistinguishable by every operation used in the module except as a division
denominator, where the module only ever divides by nonnegative quantities).

The rational arithmetic is routed through `Rat.divInt` (`qadd`, `qmul`,
`qdiv` below, proved equal to `+`, `*`, `/`) so that every definition in
this file evaluates by kernel reduction on concrete inputs. -/

namespace MelonVideo

/-- Rational addition, computably: equal to `a + b` (see `qadd_eq_add`). -/
def qadd (a b : ℚ) : ℚ := Rat.divInt (a.num * b.den + b.num * a.den) (a.den * b.den)

/-- Rational multiplication, computably: equal to `a * b` (see `qmul_eq_mul`). -/
def qmul (a b : ℚ) : ℚ := Rat.divInt (a.num * b.num) (a.den * b.den)

/-- Rational division, computably: equal to `a / b` (see `qdiv_eq_div`). -/
def qdiv (a b : ℚ) : ℚ := Rat.divInt (a.num * b.den) (a.den * b.num)

theorem qadd_eq_add (a b : ℚ) : qadd a b = a + b := by
  rw [qadd, ← Rat.divInt_add_divInt _ _
      (Int.natCast_ne_zero.2 a.den_nz) (Int.natCast_ne_zero.2 b.den_nz),
    Rat.num_divInt_den, Rat.num_divInt_den]

theorem qmul_eq_mul (a b : ℚ) : qmul a b = a * b := by
  rw [qmul, ← Rat.divInt_mul_divInt', Rat.num_divInt_den, Rat.num_divInt_den]

theorem qdiv_eq_div (a b : ℚ) : qdiv a b = a / b := by
  rw [qdiv, ← Rat.div_def']

/-- The literal `0.5` appearing in the rounding idiom `~~(x + 0.5)`. -/
def half : ℚ := Rat.divInt 1 2

theorem half_eq : half = 1 / 2 := by
  rw [half, Rat.divInt_eq_div]
  norm_num

/-- JavaScript number: an exact rational, `+Infinity`, `-Infinity`, or `NaN`. -/
inductive JSNum where
  | nan : JSNum
  | posInf : JSNum
  | negInf : JSNum
  | num : ℚ → JSNum
  deriving DecidableEq

/-- ECMAScript ToBoolean on a number: `0`, `-0` and `NaN` are falsy. -/
def jsTruthy : JSNum → Bool
  | .nan => false
  | .num a => decide (a ≠ 0)
  | _ => true

/-- ECMAScript addition (only needed here for `x + 0.5`). -/
def jsAdd : JSNum → JSNum → JSNum
  | .nan, _ => .nan
  | _, .nan => .nan
  | .posInf, .negInf => .nan
  | .negInf, .posInf => .nan
  | .posInf, _ => .posInf
  | _, .posInf => .posInf
  | .negInf, _ => .negInf
  | _, .negInf => .negInf
  | .num a, .num b => .num (qadd a b)

/-- ECMAScript multiplication: NaN propagates, `Infinity * 0 = NaN`,
`Infinity * x` takes the sign of `x`. -/
def jsMul : JSNum → JSNum → JSNum
  | .nan, _ => .nan
  | _, .nan => .nan
  | .posInf, .posInf => .posInf
  | .posInf, .negInf => .negInf
  | .negInf, .posInf => .negInf
  | .negInf, .negInf => .posInf
  | .posInf, .num b => if b = 0 then .nan else if 0 < b then .posInf else .negInf
  | .num a, .posInf => if a = 0 then .nan else if 0 < a then .posInf else .negInf
  | .negInf, .num b => if b = 0 then .nan else if 0 < b then .negInf else .posInf
  | .num a, .negInf => if a = 0 then .nan else if 0 < a then .negInf else .posInf
  | .num a, .num b => .num (qmul a b)

/-- ECMAScript division: NaN propagates, `Infinity / Infinity = NaN`,
`x / 0 = ±Infinity` for `x ≠ 0` (the `0` denominator standing for `+0`),
`0 / 0 = NaN`, `x / Infinity = 0`. -/
def jsDiv : JSNum → JSNum → JSNum
  | .nan, _ => .nan
  | _, .nan => .nan
  | .posInf, .posInf => .nan
  | .posInf, .negInf => .nan
  | .negInf, .posInf => .nan
  | .negInf, .negInf => .nan
  | .posInf, .num b => if 0 ≤ b then .posInf else .negInf
  | .negInf, .num b => if 0 ≤ b then .negInf else .posInf
  | .num _, .posInf => .num 0
  | .num _, .negInf => .num 0
  | .num a, .num b =>
      if b = 0 then (if a = 0 then .nan else if 0 < a then .posInf else .negInf)
      else .num (qdiv a b)

/-- ECMAScript `<`: any comparison with NaN is false. -/
def jsLt : JSNum → JSNum → Bool
  | .nan, _ => false
  | _, .nan => false
  | .posInf, _ => false
  | _, .posInf => true
  | .negInf, .negInf => false
  | .negInf, _ => true
  | .num _, .negInf => false
  | .num a, .num b => decide (a < b)

/-- ECMAScript `Math.min` of two arguments: NaN if either argument is NaN. -/
def jsMin (a b : JSNum) : JSNum :=
  if a = .nan ∨ b = .nan then .nan else if jsLt b a then b else a

/-- ECMAScript `Math.floor`: the identity on NaN and the infinities. -/
def jsFloor : JSNum → JSNum
  | .num a => .num (⌊a⌋ : ℚ)
  | x => x

/-- Truncation of a rational toward zero, as ECMAScript ToInt32 begins with. -/
def ratTrunc (a : ℚ) : ℤ := if 0 ≤ a then ⌊a⌋ else -⌊-a⌋

/-- ECMAScript ToInt32 (the conversion applied by the `~~` double bitwise-not
idiom): NaN and the infinities go to 0, finite values are truncated toward
zero and wrapped into the signed 32-bit range. -/
def jsToInt32 : JSNum → ℤ
  | .num a => (ratTrunc a + 2 ^ 31) % 2 ^ 32 - 2 ^ 31
  | _ => 0

/-- ToInt32 followed by reinjection into the number carrier (`~~x` yields an
ordinary number in JavaScript). -/
def jsToInt32Num (x : JSNum) : JSNum := JSNum.num ((jsToInt32 x : ℤ) : ℚ)

/-- JavaScript `a || b` where `a` is a possibly-undefined number (as in
`parentNodeWidth || window.innerWidth`): an undefined or falsy left operand
yields the right operand. -/
def jsOrNum (a : Option JSNum) (b : JSNum) : JSNum :=
  match a with
  | some x => if jsTruthy x then x else b
  | none => b

/-- The module-level state read by `api.onresize` (video.js lines 400-465):
the sanitized `settings`, the design metrics recorded by `api.init`
(lines 185-187), the `maxWidth`/`maxHeight` bounds, the measured parent-node
size (undefined when there is no parent node or the measurement is absent),
the window fallback dimensions, and the device pixel ratio.  `designRatio`
in the source is set once to `game_width / game_height`; it is exposed here
as the derived value `designAspect`. -/
structure VideoEnv where
  scaleMethod : String
  autoScale : Bool
  designWidth : JSNum
  designHeight : JSNum
  maxWidth : JSNum
  maxHeight : JSNum
  parentNodeWidth : Option JSNum
  parentNodeHeight : Option JSNum
  innerWidth : JSNum
  innerHeight : JSNum
  pixelDensity : JSNum
  deriving DecidableEq

/-- `designRatio = game_width / game_height` (video.js line 185). -/
def designAspect (env : VideoEnv) : JSNum := jsDiv env.designWidth env.designHeight

/-- `_max_width = Math.floor(Math.min(maxWidth, parentNodeWidth || window.innerWidth))`
(video.js line 419). -/
def clampedWidth (env : VideoEnv) : JSNum :=
  jsFloor (jsMin env.maxWidth (jsOrNum env.parentNodeWidth env.innerWidth))

/-- `_max_height = Math.floor(Math.min(maxHeight, parentNodeHeight || window.innerHeight))`
(video.js line 420). -/
def clampedHeight (env : VideoEnv) : JSNum :=
  jsFloor (jsMin env.maxHeight (jsOrNum env.parentNodeHeight env.innerHeight))

/-- Result of the scaling computation: the two scale factors (after the
device-pixel-ratio multiplication of lines 464-465) and the arguments of the
`this.renderer.resize` call, when one is made. -/
structure ScaleResult where
  scaleX : JSNum
  scaleY : JSNum
  resizeCall : Option (JSNum × JSNum)
  deriving DecidableEq

/-- The scaling computation of `api.onresize` (video.js lines 402-465),
executed when `settings.autoScale` holds: the policy dispatch on
`settings.scaleMethod`, the surface-resize argument computation, and the
final multiplication of both scale factors by the device pixel ratio. -/
def onresizeCompute (env : VideoEnv) : ScaleResult :=
  let mw := clampedWidth env
  let mh := clampedHeight env
  let screenAspect := jsDiv mw mh
  let base : ScaleResult :=
    if (decide (env.scaleMethod = "fill-min") && jsLt (designAspect env) screenAspect) ||
       (decide (env.scaleMethod = "fill-max") && jsLt screenAspect (designAspect env)) ||
       decide (env.scaleMethod = "flex-width") then
      -- var sWidth = Math.min(maxWidth, designHeight * screenRatio);
      -- scaleX = scaleY = _max_width / sWidth;
      -- sWidth = ~~(sWidth + 0.5);
      -- this.renderer.resize(sWidth, designHeight);
      let sWidth := jsMin env.maxWidth (jsMul env.designHeight screenAspect)
      let sc := jsDiv mw sWidth
      { scaleX := sc, scaleY := sc,
        resizeCall := some (jsToInt32Num (jsAdd sWidth (JSNum.num half)), env.designHeight) }
    else if (decide (env.scaleMethod = "fill-min") && jsLt screenAspect (designAspect env)) ||
            (decide (env.scaleMethod = "fill-max") && jsLt (designAspect env) screenAspect) ||
            decide (env.scaleMethod = "flex-height") then
      -- var sHeight = Math.min(maxHeight, designWidth * (_max_height / _max_width));
      -- scaleX = scaleY = _max_height / sHeight;
      -- sHeight = ~~(sHeight + 0.5);
      -- this.renderer.resize(designWidth, sHeight);
      let sHeight := jsMin env.maxHeight (jsMul env.designWidth (jsDiv mh mw))
      let sc := jsDiv mh sHeight
      { scaleX := sc, scaleY := sc,
        resizeCall := some (env.designWidth, jsToInt32Num (jsAdd sHeight (JSNum.num half))) }
    else if decide (env.scaleMethod = "flex") then
      -- this.renderer.resize(_max_width, _max_height);
      { scaleX := JSNum.num 1, scaleY := JSNum.num 1, resizeCall := some (mw, mh) }
    else if decide (env.scaleMethod = "stretch") then
      -- scaleX = _max_width / designWidth; scaleY = _max_height / designHeight;
      { scaleX := jsDiv mw env.designWidth, scaleY := jsDiv mh env.designHeight,
        resizeCall := none }
    else
      -- default "fit" branch
      if jsLt screenAspect (designAspect env) then
        { scaleX := jsDiv mw env.designWidth, scaleY := jsDiv mw env.designWidth,
          resizeCall := none }
      else
        { scaleX := jsDiv mh env.designHeight, scaleY := jsDiv mh env.designHeight,
          resizeCall := none }
  -- scaleX *= me.device.devicePixelRatio; scaleY *= me.device.devicePixelRatio;
  { scaleX := jsMul base.scaleX env.pixelDensity,
    scaleY := jsMul base.scaleY env.pixelDensity,
    resizeCall := base.resizeCall }

/-- Deferred-resize coordination state of the module: `pending` is the
deferred `me.video.scale` call currently scheduled (the source tracks it
through the timer id `deferResizeId`, `-1` when none; every schedule path in
`api.onresize` first cancels the previous timer, lines 468-471, and
`api.scale` resets the id, lines 522-523, so an `Option` is an exact model
for the entry points embedded here); `applied` is the trace of executed
`me.video.scale` applications, in order. -/
structure CoordState where
  pending : Option (JSNum × JSNum)
  applied : List (JSNum × JSNum)
  deriving DecidableEq

/-- The coordination part of `api.onresize` (video.js lines 404, 468-476):
when `settings.autoScale` holds, compute the scale, cancel any pending
deferred resize, then either apply immediately (`force === true`) or
schedule a deferred `me.video.scale(scaleX, scaleY)`.  The source's `force`
is compared with `!== true`, so any non-`true` argument (an event object,
`undefined`, a mutation list) takes the deferred path; `force : Bool` models
exactly that comparison. -/
def onresize (env : VideoEnv) (force : Bool) (s : CoordState) : CoordState :=
  if env.autoScale then
    let r := onresizeCompute env
    let s1 : CoordState := { s with pending := none }
    if force then
      { s1 with pending := none, applied := s1.applied ++ [(r.scaleX, r.scaleY)] }
    else
      { s1 with pending := some (r.scaleX, r.scaleY) }
  else s

/-- The host timer firing the deferred call scheduled by
`me.utils.function.defer(me.video.scale, this, scaleX, scaleY)` (line 473):
`api.scale` runs with the recorded arguments and clears the bookkeeping. -/
def fireDeferred (s : CoordState) : CoordState :=
  match s.pending with
  | none => s
  | some v => { pending := none, applied := s.applied ++ [v] }

/-- The renderer settings read by `api.scale` (`settings.antiAlias`,
`settings.blendMode` of `this.renderer.settings`). -/
structure RendererSettings where
  antiAlias : Bool
  blendMode : String
  deriving DecidableEq

/-- The mutable state touched by `api.scale` (video.js lines 494-524): the
canvas's physical (drawing-buffer) size, its CSS style size in pixels, the
global scale vector `me.sys.scale`, the renderer's anti-alias and blend-mode
flags, and the `deferResizeId` bookkeeping. -/
structure VideoState where
  canvasWidth : JSNum
  canvasHeight : JSNum
  cssWidth : JSNum
  cssHeight : JSNum
  sysScaleX : JSNum
  sysScaleY : JSNum
  antiAliasFlag : Bool
  blendModeFlag : String
  deferResizeId : ℤ
  deriving DecidableEq

/-- Outbound requests issued by `api.scale`, in order: the
`renderer.updateBounds()` call and the `me.game.repaint()` request. -/
inductive VideoEffect where
  | updateBoundsReq : VideoEffect
  | repaintReq : VideoEffect
  deriving DecidableEq

/-- `api.scale(x, y)` (video.js lines 494-524): `w = canvas.width * x`,
`h = canvas.height * y`; set `me.sys.scale`; set the CSS style size to
`(w, h)` divided by the device pixel ratio when that ratio exceeds 1;
re-apply anti-alias and blend mode from the renderer settings; request a
bounds update and a repaint; clear `deferResizeId`. -/
def scale (pixelDensity : JSNum) (sett : RendererSettings) (x y : JSNum)
    (s : VideoState) : VideoState × List VideoEffect :=
  let w := jsMul s.canvasWidth x
  let h := jsMul s.canvasHeight y
  let s1 := { s with sysScaleX := x, sysScaleY := y }
  let s2 :=
    if jsLt (JSNum.num 1) pixelDensity then
      { s1 with cssWidth := jsDiv w pixelDensity, cssHeight := jsDiv h pixelDensity }
    else
      { s1 with cssWidth := w, cssHeight := h }
  let s3 := { s2 with antiAliasFlag := sett.antiAlias, blendModeFlag := sett.blendMode }
  let s4 := { s3 with deferResizeId := -1 }
  (s4, [VideoEffect.updateBoundsReq, VideoEffect.repaintReq])

/-- A call scheduled through the host's task-deferral primitive.
`api.setMaxSize` schedules `me.utils.function.defer(me.video.onresize,
me.video)` with no further arguments, so the deferred `onresize` runs with
`force = undefined`, which fails the `force === true` test: a non-forced
resize. -/
inductive ScheduledCall where
  | deferredOnresize : Bool → ScheduledCall
  deriving DecidableEq

/-- The bounds state owned by the module (`maxWidth`, `maxHeight`,
video.js lines 19-20, default `Infinity`). -/
structure MaxSizeState where
  maxWidth : JSNum
  maxHeight : JSNum
  deriving DecidableEq

/-- `api.setMaxSize(w, h)` (video.js lines 340-347): `maxWidth = w || Infinity`,
`maxHeight = h || Infinity` (a falsy argument — `0`, `-0` or `NaN` — resets
the bound to `Infinity`), then a deferred non-forced resize is scheduled. -/
def setMaxSize (w h : JSNum) : MaxSizeState × List ScheduledCall :=
  ({ maxWidth := if jsTruthy w then w else .posInf,
     maxHeight := if jsTruthy h then h else .posInf },
   [ScheduledCall.deferredOnresize false])

/-- The language of the anchored regular expression
`/^(fill-(min|max)|fit|flex(-(width|height))?|stretch)$/` (video.js
line 156): exactly the seven recognized scale-method names. -/
def recognizedScaleMethods : List String :=
  ["fill-min", "fill-max", "fit", "flex", "flex-width", "flex-height", "stretch"]

/-- Lines 156-158 of `api.init`: `settings.scaleMethod` is reset to `"fit"`
unless `scaleMethod.search(regex) === 0`.  The pattern is anchored by both
`^` and `$` (and has no multiline flag), so a match found at index 0 is
necessarily a whole-string match: the test succeeds exactly on the seven
names of `recognizedScaleMethods`. -/
def normalizeScaleMethod (s : String) : String :=
  if s ∈ recognizedScaleMethods then s else "fit"

/-- The two renderer families the module selects between. -/
inductive BackendKind where
  | webgl : BackendKind
  | canvas : BackendKind
  deriving DecidableEq

/-- Outcomes of the external collaborators consumed by renderer selection:
whether `me.device.isWebGLSupported(options)` returns a boolean (`Except.ok`)
or itself throws (`Except.error`), and whether each renderer constructor
returns a renderer or throws. -/
structure BackendOutcomes where
  webglSupported : Except Unit Bool
  webglCtor : Except Unit Unit
  canvasCtor : Except Unit Unit

/-- Trace of one renderer-selection call: whether the WebGL constructor was
invoked, which backends were successfully constructed (in order), and the
result — the selected backend, or the exception that propagated. -/
structure SelectTrace where
  webglAttempted : Bool
  constructed : List BackendKind
  result : Except Unit BackendKind

/-- `return new me.CanvasRenderer(options)`.  In `autoDetectRenderer` this
statement sits after (outside) the `try` block, so a canvas-constructor
exception propagates to the caller. -/
def canvasConstruct (attempted : Bool) (o : BackendOutcomes) : SelectTrace :=
  match o.canvasCtor with
  | .ok _ => ⟨attempted, [BackendKind.canvas], .ok BackendKind.canvas⟩
  | .error _ => ⟨attempted, [], .error ()⟩

/-- `autoDetectRenderer(options)` (video.js lines 45-54): inside a `try`,
probe WebGL support and, when supported, construct a `WebGLRenderer`; any
exception from the probe or the WebGL constructor is caught (and logged);
control then falls through to the `CanvasRenderer` construction. -/
def autoDetectRenderer (o : BackendOutcomes) : SelectTrace :=
  match o.webglSupported with
  | .error _ => canvasConstruct false o
  | .ok false => canvasConstruct false o
  | .ok true =>
      match o.webglCtor with
      | .ok _ => ⟨true, [BackendKind.webgl], .ok BackendKind.webgl⟩
      | .error _ => canvasConstruct true o

/-- The renderer `switch` in `api.init` (video.js lines 252-260): the values
`AUTO` (2) and `WEBGL` (1) go through `autoDetectRenderer`; every other
value — in particular `CANVAS` (0) — constructs a `CanvasRenderer` directly,
never touching the WebGL probe or constructor. -/
def selectRenderer (rendererSetting : ℤ) (o : BackendOutcomes) : SelectTrace :=
  if rendererSetting = 2 ∨ rendererSetting = 1 then autoDetectRenderer o
  else canvasConstruct false o

/-- How a call to `api.init` terminates its renderer-selection phase:
a normal return with a boolean, or an exception escaping to the caller. -/
inductive InitOutcome where
  | ret : Bool → InitOutcome
  | threw : String → InitOutcome
  deriving DecidableEq

/-- The `try`/`catch` around renderer selection in `api.init` (video.js
lines 244-265).  On success, `init` proceeds and eventually returns `true`.
The `catch` block executes `console(e.message)` (line 262); the global
`console` is an object, not a function, so that call itself throws a
TypeError which escapes `api.init` before the `return false` on line 264 is
reached. -/
def initRendererPhase (rendererSetting : ℤ) (o : BackendOutcomes) : InitOutcome :=
  match (selectRenderer rendererSetting o).result with
  | .ok _ => InitOutcome.ret true
  | .error _ => InitOutcome.threw "TypeError: console is not a function"

/-- Computable minimum of two rationals; equal to `min` (see `qmin_eq_min`). -/
def qmin (a b : ℚ) : ℚ := if a ≤ b then a else b

theorem qmin_eq_min (a b : ℚ) : qmin a b = min a b := (min_def a b).symm

/-- Modelled from the words of claim C1 (and the spec sentence it quotes):
under FillMin with screenRatio > designRatio, or FlexWidth, the surface is
said to be resized to `(round(min(clampedW, designHeight*screenRatio)),
designHeight)` with `scaleX = scaleY = clampedW / that computed (rounded)
width`, before the pixel-ratio multiplication.  Stated over the clamped
container size `(mw, mh)`; see `fillMinClaimed_def` for the same definition
written with ordinary rational operations. -/
def fillMinClaimed (dH mw mh p : ℚ) : ScaleResult :=
  let rounded : ℚ := ((⌊qadd (qmin mw (qmul dH (qdiv mw mh))) half⌋ : ℤ) : ℚ)
  { scaleX := .num (qmul (qdiv mw rounded) p),
    scaleY := .num (qmul (qdiv mw rounded) p),
    resizeCall := some (.num rounded, .num dH) }

theorem fillMinClaimed_def (dH mw mh p : ℚ) :
    fillMinClaimed dH mw mh p =
      { scaleX := .num (mw / ((⌊min mw (dH * (mw / mh)) + 1 / 2⌋ : ℤ) : ℚ) * p),
        scaleY := .num (mw / ((⌊min mw (dH * (mw / mh)) + 1 / 2⌋ : ℤ) : ℚ) * p),
        resizeCall := some (.num ((⌊min mw (dH * (mw / mh)) + 1 / 2⌋ : ℤ) : ℚ), .num dH) } := by
  simp only [fillMinClaimed, qadd_eq_add, qmul_eq_mul, qdiv_eq_div, qmin_eq_min, half_eq]

section OpLemmas

theorem jsDiv_num_num (a b : ℚ) (hb : b ≠ 0) :
    jsDiv (.num a) (.num b) = .num (a / b) := by
  simp [jsDiv, hb, qdiv_eq_div]

theorem jsMul_num_num (a b : ℚ) : jsMul (.num a) (.num b) = .num (a * b) := by
  simp [jsMul, qmul_eq_mul]

theorem jsAdd_num_num (a b : ℚ) : jsAdd (.num a) (.num b) = .num (a + b) := by
  simp [jsAdd, qadd_eq_add]

theorem jsLt_num_num (a b : ℚ) : jsLt (.num a) (.num b) = decide (a < b) := rfl

theorem jsLt_posInf_left (x : JSNum) : jsLt .posInf x = false := by
  cases x <;> rfl

theorem jsDiv_num_zero_pos (a : ℚ) (ha : 0 < a) :
    jsDiv (.num a) (.num 0) = .posInf := by
  simp [jsDiv, ha.ne', ha]

theorem jsMin_posInf_num (q : ℚ) : jsMin .posInf (.num q) = .num q := rfl

theorem jsMin_num_num (a b : ℚ) : jsMin (.num a) (.num b) = .num (min a b) := by
  simp only [jsMin, jsLt]
  rw [if_neg (by simp)]
  rcases lt_or_le b a with h | h
  · rw [if_pos (by simpa using h), min_eq_right h.le]
  · rw [if_neg (by simpa using not_lt.2 h), min_eq_left h]

theorem jsToInt32Num_num (q : ℚ) (h0 : 0 ≤ q) (h1 : q < 2147483648) :
    jsToInt32Num (.num q) = .num ((⌊q⌋ : ℤ) : ℚ) := by
  have hfl0 : (0 : ℤ) ≤ ⌊q⌋ := Int.floor_nonneg.2 h0
  have hfl1 : ⌊q⌋ < 2147483648 := Int.floor_lt.2 (by exact_mod_cast h1)
  have e31 : (2 : ℤ) ^ 31 = 2147483648 := by norm_num
  have e32 : (2 : ℤ) ^ 32 = 4294967296 := by norm_num
  simp only [jsToInt32Num, jsToInt32, ratTrunc, if_pos h0]
  congr 2
  rw [e31, e32, Int.emod_eq_of_lt (by omega) (by omega)]
  omega

end OpLemmas

section BranchLemmas

/-- Evaluation of `onresizeCompute` in the default ("fit") branch, for any
scale method matching none of the six named policies. -/
theorem onresizeCompute_fit (env : VideoEnv) (hm : env.scaleMethod = "fit") :
    onresizeCompute env =
      { scaleX := jsMul
          (if jsLt (jsDiv (clampedWidth env) (clampedHeight env)) (designAspect env)
           then jsDiv (clampedWidth env) env.designWidth
           else jsDiv (clampedHeight env) env.designHeight) env.pixelDensity,
        scaleY := jsMul
          (if jsLt (jsDiv (clampedWidth env) (clampedHeight env)) (designAspect env)
           then jsDiv (clampedWidth env) env.designWidth
           else jsDiv (clampedHeight env) env.designHeight) env.pixelDensity,
        resizeCall := none } := by
  cases hjs : jsLt (jsDiv (clampedWidth env) (clampedHeight env)) (designAspect env) <;>
    simp [onresizeCompute, hm, hjs]

/-- Evaluation of `onresizeCompute` in the first branch (video.js lines
423-432), whose guard is `fill-min` with `screenRatio > designRatio`,
`fill-max` with `screenRatio < designRatio`, or `flex-width`. -/
theorem onresizeCompute_widthBranch (env : VideoEnv)
    (hcond : (decide (env.scaleMethod = "fill-min") &&
        jsLt (designAspect env) (jsDiv (clampedWidth env) (clampedHeight env)) ||
      decide (env.scaleMethod = "fill-max") &&
        jsLt (jsDiv (clampedWidth env) (clampedHeight env)) (designAspect env) ||
      decide (env.scaleMethod = "flex-width")) = true) :
    onresizeCompute env =
      { scaleX := jsMul (jsDiv (clampedWidth env)
          (jsMin env.maxWidth (jsMul env.designHeight
            (jsDiv (clampedWidth env) (clampedHeight env))))) env.pixelDensity,
        scaleY := jsMul (jsDiv (clampedWidth env)
          (jsMin env.maxWidth (jsMul env.designHeight
            (jsDiv (clampedWidth env) (clampedHeight env))))) env.pixelDensity,
        resizeCall := some (jsToInt32Num (jsAdd
          (jsMin env.maxWidth (jsMul env.designHeight
            (jsDiv (clampedWidth env) (clampedHeight env)))) (JSNum.num half)),
          env.designHeight) } := by
  simp [onresizeCompute, hcond]

end BranchLemmas

/-- Claim C2: under the Fit policy, for positive design and positive clamped
container dimensions, the two computed scale factors are equal (the design
aspect ratio is preserved), and the common scale is `clampedW / designWidth`
when `screenRatio < designRatio` and `clampedH / designHeight` otherwise,
multiplied by the device pixel ratio. -/
theorem fit_scale_uniform (env : VideoEnv) (dW dH mw mh p : ℚ)
    (hm : env.scaleMethod = "fit")
    (hdW : env.designWidth = .num dW) (hdH : env.designHeight = .num dH)
    (hdWpos : 0 < dW) (hdHpos : 0 < dH)
    (hmw : clampedWidth env = .num mw) (hmh : clampedHeight env = .num mh)
    (hmwpos : 0 < mw) (hmhpos : 0 < mh)
    (hp : env.pixelDensity = .num p) :
    (onresizeCompute env).scaleX = (onresizeCompute env).scaleY ∧
    (onresizeCompute env).scaleX =
      .num ((if mw / mh < dW / dH then mw / dW else mh / dH) * p) := by
  have hdr : designAspect env = .num (dW / dH) := by
    rw [designAspect, hdW, hdH, jsDiv_num_num _ _ hdHpos.ne']
  rw [onresizeCompute_fit env hm, hmw, hmh, hdr, hdW, hdH, hp,
    jsDiv_num_num _ _ hmhpos.ne']
  rcases lt_or_le (mw / mh) (dW / dH) with h | h
  · rw [if_pos (by simpa [jsLt_num_num] using h)]
    simp only [jsDiv_num_num _ _ hdWpos.ne', jsMul_num_num, if_pos h]
    exact ⟨trivial, trivial⟩
  · rw [if_neg (by simpa [jsLt_num_num] using not_lt.2 h)]
    simp only [jsDiv_num_num _ _ hdHpos.ne', jsMul_num_num, if_neg (not_lt.2 h)]
    exact ⟨trivial, trivial⟩

/-- The value of `Math.min(bound, q)` for a finite rational `q` when the
bound is `+Infinity` or a finite rational; used to phrase the computed
surface width in claim statements. -/
def jsMinWithQ : JSNum → ℚ → ℚ
  | .num b, q => min b q
  | _, q => q

/-- Claim C1 as amended: under FillMin with `screenRatio > designRatio` (or
FlexWidth unconditionally), with positive design and clamped container
sizes and a bound `maxWidth` that is `+Infinity` or positive, the surface
is resized to `(round(min(maxWidth, designHeight * screenRatio)),
designHeight)` — the *bound* `maxWidth`, not the clamped container width,
caps the computed width — and `scaleX = scaleY = clampedW` divided by the
*unrounded* `min(maxWidth, designHeight * screenRatio)`, before the
pixel-ratio multiplication.  (`round` is round-half-up, `⌊x + 1/2⌋`; the
32-bit wrap of `~~` is invisible below the stated bound.) -/
theorem fillMin_width_scale (env : VideoEnv) (dW dH mw mh p : ℚ)
    (hdW : env.designWidth = .num dW) (hdH : env.designHeight = .num dH)
    (hdWpos : 0 < dW) (hdHpos : 0 < dH)
    (hmw : clampedWidth env = .num mw) (hmh : clampedHeight env = .num mh)
    (hmwpos : 0 < mw) (hmhpos : 0 < mh)
    (hp : env.pixelDensity = .num p)
    (hmax : env.maxWidth = .posInf ∨ ∃ b : ℚ, 0 < b ∧ env.maxWidth = .num b)
    (hpol : (env.scaleMethod = "fill-min" ∧ dW / dH < mw / mh) ∨
            env.scaleMethod = "flex-width")
    (hbound : dH * (mw / mh) < 2147483647) :
    (onresizeCompute env).scaleX =
      .num (mw / jsMinWithQ env.maxWidth (dH * (mw / mh)) * p) ∧
    (onresizeCompute env).scaleY = (onresizeCompute env).scaleX ∧
    (onresizeCompute env).resizeCall =
      some (.num ((⌊jsMinWithQ env.maxWidth (dH * (mw / mh)) + 1 / 2⌋ : ℤ) : ℚ),
        .num dH) := by
  have hdr : designAspect env = .num (dW / dH) := by
    rw [designAspect, hdW, hdH, jsDiv_num_num _ _ hdHpos.ne']
  have hsr : jsDiv (clampedWidth env) (clampedHeight env) = .num (mw / mh) := by
    rw [hmw, hmh, jsDiv_num_num _ _ hmhpos.ne']
  have hq : 0 < dH * (mw / mh) := mul_pos hdHpos (div_pos hmwpos hmhpos)
  have hcond : (decide (env.scaleMethod = "fill-min") &&
      jsLt (designAspect env) (jsDiv (clampedWidth env) (clampedHeight env)) ||
    decide (env.scaleMethod = "fill-max") &&
      jsLt (jsDiv (clampedWidth env) (clampedHeight env)) (designAspect env) ||
    decide (env.scaleMethod = "flex-width")) = true := by
    rcases hpol with ⟨hm, hlt⟩ | hm <;> simp [hm, hdr, hsr, jsLt_num_num]
    exact hlt
  have hmin : jsMin env.maxWidth (.num (dH * (mw / mh))) =
      .num (jsMinWithQ env.maxWidth (dH * (mw / mh))) := by
    rcases hmax with hx | ⟨b, hbpos, hx⟩ <;> rw [hx]
    · rfl
    · exact jsMin_num_num b _
  have hswpos : 0 < jsMinWithQ env.maxWidth (dH * (mw / mh)) := by
    rcases hmax with hx | ⟨b, hbpos, hx⟩ <;> rw [hx]
    · exact hq
    · exact lt_min hbpos hq
  have hswle : jsMinWithQ env.maxWidth (dH * (mw / mh)) ≤ dH * (mw / mh) := by
    rcases hmax with hx | ⟨b, hbpos, hx⟩ <;> rw [hx]
    · exact le_refl _
    · exact min_le_right b _
  rw [onresizeCompute_widthBranch env hcond, hsr, hdH, hmw, hp, jsMul_num_num,
    hmin, jsDiv_num_num _ _ hswpos.ne', jsMul_num_num, jsAdd_num_num,
    half_eq, jsToInt32Num_num _ (by linarith) (by linarith)]
  exact ⟨rfl, rfl, rfl⟩

/-- Concrete input refuting claim C1's formula: design 800×600, unbounded
`maxWidth`/`maxHeight`, container 500×300, FillMin, pixel ratio 1.  Here
`screenRatio = 5/3 > 4/3 = designRatio`, and `designHeight * screenRatio =
1000` exceeds the clamped container width 500, so the code resizes the
surface to width `min(maxWidth, 1000) = 1000` with scale `500/1000 = 1/2`,
while the claim predicts width `round(min(500, 1000)) = 500` and scale
`500/500 = 1`. -/
def envC1A : VideoEnv :=
  { scaleMethod := "fill-min", autoScale := true,
    designWidth := .num 800, designHeight := .num 600,
    maxWidth := .posInf, maxHeight := .posInf,
    parentNodeWidth := some (.num 500), parentNodeHeight := some (.num 300),
    innerWidth := .num 500, innerHeight := .num 300,
    pixelDensity := .num 1 }

/-- Concrete input refuting claim C1's rounding of the scale divisor:
design 800×600, unbounded bounds, container 1000×601, FillMin, pixel
ratio 1.  The computed width is `600 * 1000/601 = 600000/601 ≈ 998.34`,
rounded to 998 for the resize; the code's scale is `1000 / (600000/601) =
601/600`, while the claim's `clampedW / roundedWidth = 1000/998 = 500/499`
differs. -/
def envC1B : VideoEnv :=
  { scaleMethod := "fill-min", autoScale := true,
    designWidth := .num 800, designHeight := .num 600,
    maxWidth := .posInf, maxHeight := .posInf,
    parentNodeWidth := some (.num 1000), parentNodeHeight := some (.num 601),
    innerWidth := .num 1000, innerHeight := .num 601,
    pixelDensity := .num 1 }

/-- Claim C1 as stated is false: at `envC1A` the code resizes the surface to
width 1000 (not the claimed 500) with a different scale, and at `envC1B`
the code's scale divides by the unrounded width, differing from the
claimed division by the rounded width even though both agree on the
resize arguments. -/
theorem videoC1_counterexample :
    onresizeCompute envC1A ≠ fillMinClaimed 600 500 300 1 ∧
    (onresizeCompute envC1A).resizeCall = some (.num 1000, .num 600) ∧
    (fillMinClaimed 600 500 300 1).resizeCall = some (.num 500, .num 600) ∧
    (onresizeCompute envC1B).scaleX ≠ (fillMinClaimed 600 1000 601 1).scaleX ∧
    (onresizeCompute envC1B).resizeCall = (fillMinClaimed 600 1000 601 1).resizeCall := by
  refine ⟨?_, ?_, ?_, ?_, ?_⟩ <;> decide

/-- Witness instantiating `fillMin_width_scale` at `envC1B`: the computed
width is `min(+Infinity, 600 * (1000/601)) = 600000/601`, the scale divides
the clamped width 1000 by that unrounded value, and the resize rounds it. -/
theorem fillMin_width_scale_witness :
    (onresizeCompute envC1B).scaleX =
      .num (1000 / jsMinWithQ envC1B.maxWidth (600 * ((1000 : ℚ) / 601)) * 1) ∧
    (onresizeCompute envC1B).scaleY = (onresizeCompute envC1B).scaleX ∧
    (onresizeCompute envC1B).resizeCall =
      some (.num ((⌊jsMinWithQ envC1B.maxWidth (600 * ((1000 : ℚ) / 601)) + 1 / 2⌋ : ℤ) : ℚ),
        .num 600) :=
  fillMin_width_scale envC1B 800 600 1000 601 1 rfl rfl (by norm_num) (by norm_num)
    (by decide) (by decide) (by norm_num) (by norm_num) rfl (Or.inl rfl)
    (Or.inl ⟨rfl, by norm_num⟩) (by norm_num)

/-- Witness instantiating `fit_scale_uniform` at the spec's section-8 example:
design 640×480, container 1280×480, Fit, pixel ratio 1; the screen ratio
`8/3` exceeds the design ratio `4/3`, so the scale is `480/480 = 1`. -/
theorem fit_scale_uniform_witness :
    (onresizeCompute
      { scaleMethod := "fit", autoScale := true,
        designWidth := .num 640, designHeight := .num 480,
        maxWidth := .posInf, maxHeight := .posInf,
        parentNodeWidth := some (.num 1280), parentNodeHeight := some (.num 480),
        innerWidth := .num 1280, innerHeight := .num 480,
        pixelDensity := .num 1 }).scaleX =
    (onresizeCompute
      { scaleMethod := "fit", autoScale := true,
        designWidth := .num 640, designHeight := .num 480,
        maxWidth := .posInf, maxHeight := .posInf,
        parentNodeWidth := some (.num 1280), parentNodeHeight := some (.num 480),
        innerWidth := .num 1280, innerHeight := .num 480,
        pixelDensity := .num 1 }).scaleY ∧
    (onresizeCompute
      { scaleMethod := "fit", autoScale := true,
        designWidth := .num 640, designHeight := .num 480,
        maxWidth := .posInf, maxHeight := .posInf,
        parentNodeWidth := some (.num 1280), parentNodeHeight := some (.num 480),
        innerWidth := .num 1280, innerHeight := .num 480,
        pixelDensity := .num 1 }).scaleX =
      .num ((if (1280 : ℚ) / 480 < (640 : ℚ) / 480 then (1280 : ℚ) / 640
             else (480 : ℚ) / 480) * 1) :=
  fit_scale_uniform _ 640 480 1280 480 1 rfl rfl rfl (by norm_num) (by norm_num)
    (by decide) (by decide) (by norm_num) (by norm_num) rfl

/-- Claim C3: two non-forced resize requests followed by the deferred firing
apply exactly one scale — the second request's computed values — and a
further firing changes nothing (the first request's pending application was
cancelled; at most one deferred resize is outstanding). -/
theorem deferred_last_request_wins (e1 e2 : VideoEnv) (s : CoordState)
    (h1 : e1.autoScale = true) (h2 : e2.autoScale = true) :
    fireDeferred (onresize e2 false (onresize e1 false s)) =
      { pending := none,
        applied := s.applied ++
          [((onresizeCompute e2).scaleX, (onresizeCompute e2).scaleY)] } ∧
    fireDeferred (fireDeferred (onresize e2 false (onresize e1 false s))) =
      fireDeferred (onresize e2 false (onresize e1 false s)) := by
  simp [onresize, fireDeferred, h1, h2]

/-- Witness instantiating `deferred_last_request_wins` with two concrete
environments (the second shrinks the container), starting from the empty
trace: the single applied scale matches the second request. -/
theorem deferred_last_request_wins_witness :
    fireDeferred (onresize envC1B false (onresize envC1A false
        { pending := none, applied := [] })) =
      { pending := none,
        applied := [((onresizeCompute envC1B).scaleX, (onresizeCompute envC1B).scaleY)] } ∧
    fireDeferred (fireDeferred (onresize envC1B false (onresize envC1A false
        { pending := none, applied := [] }))) =
      fireDeferred (onresize envC1B false (onresize envC1A false
        { pending := none, applied := [] })) :=
  deferred_last_request_wins envC1A envC1B { pending := none, applied := [] } rfl rfl

/-- Claim C4 as amended: a zero container axis is not guarded against — the
resize computation still applies a scale mutation computed through the
degenerate ratio.  Under Fit with a positive clamped width and a zero
clamped height, `screenRatio = clampedW / 0 = +Infinity`, the comparison
`Infinity < designRatio` is false, and the applied scale is
`clampedH / designHeight = 0`: a forced resize replaces the previous scale
with `(0, 0)` instead of retaining it. -/
theorem degenerate_axis_scale_applied (env : VideoEnv) (dH cw p : ℚ)
    (s : CoordState)
    (hauto : env.autoScale = true) (hm : env.scaleMethod = "fit")
    (hdH : env.designHeight = .num dH) (hdHpos : 0 < dH)
    (hmw : clampedWidth env = .num cw) (hcwpos : 0 < cw)
    (hmh : clampedHeight env = .num 0)
    (hp : env.pixelDensity = .num p) :
    onresize env true s =
      { pending := none, applied := s.applied ++ [(.num 0, .num 0)] } := by
  have h1 : onresizeCompute env =
      { scaleX := .num 0, scaleY := .num 0, resizeCall := none } := by
    rw [onresizeCompute_fit env hm, hmw, hmh, hdH, hp,
      jsDiv_num_zero_pos cw hcwpos,
      if_neg (by simp [jsLt_posInf_left]),
      jsDiv_num_num _ _ hdHpos.ne', jsMul_num_num]
    norm_num
  simp [onresize, hauto, h1]

/-- Concrete input for the degenerate-geometry behavior: design 800×600, Fit,
unbounded bounds, parent node measuring 500×0 (window fallback also 0),
pixel ratio 1. -/
def envC4 : VideoEnv :=
  { scaleMethod := "fit", autoScale := true,
    designWidth := .num 800, designHeight := .num 600,
    maxWidth := .posInf, maxHeight := .posInf,
    parentNodeWidth := some (.num 500), parentNodeHeight := some (.num 0),
    innerWidth := .num 500, innerHeight := .num 0,
    pixelDensity := .num 1 }

/-- A surface state whose current scale is `(1, 1)`. -/
def stC4 : VideoState :=
  { canvasWidth := .num 800, canvasHeight := .num 600,
    cssWidth := .num 800, cssHeight := .num 600,
    sysScaleX := .num 1, sysScaleY := .num 1,
    antiAliasFlag := false, blendModeFlag := "normal", deferResizeId := -1 }

/-- Claim C4 as stated is false: with the container height resolved to zero,
a forced resize still applies a scale — the value `(0, 0)` — and running
that application replaces the previous scale `(1, 1)` instead of retaining
it. -/
theorem videoC4_counterexample :
    (onresize envC4 true { pending := none, applied := [] }).applied =
      [(.num 0, .num 0)] ∧
    (scale (.num 1) { antiAlias := false, blendMode := "normal" }
        (.num 0) (.num 0) stC4).1.sysScaleX = .num 0 ∧
    stC4.sysScaleX = .num 1 := by
  refine ⟨?_, ?_, ?_⟩ <;> decide

/-- Witness instantiating `degenerate_axis_scale_applied` at `envC4`. -/
theorem degenerate_axis_scale_applied_witness :
    onresize envC4 true { pending := none, applied := [] } =
      { pending := none, applied := [(.num 0, .num 0)] } :=
  degenerate_axis_scale_applied envC4 600 500 1 _ rfl rfl rfl (by norm_num)
    (by decide) (by norm_num) (by decide) rfl

/-- Claim C8: `api.scale` is idempotent — a second call with identical
arguments leaves the state produced by the first call unchanged (same CSS
dimensions, same global scale, same flags and bookkeeping) and issues the
same outbound requests. -/
theorem scale_idempotent (pd : JSNum) (sett : RendererSettings) (x y : JSNum)
    (s : VideoState) :
    scale pd sett x y (scale pd sett x y s).1 = scale pd sett x y s := by
  cases h : jsLt (.num 1) pd <;> simp [scale, h]

/-- Claim C10: `api.scale` never changes the canvas's physical
(drawing-buffer) size: the surface dimensions read at the start of the call
are still in effect after it, whatever the arguments and state. -/
theorem scale_preserves_physical_size (pd : JSNum) (sett : RendererSettings)
    (x y : JSNum) (s : VideoState) :
    (scale pd sett x y s).1.canvasWidth = s.canvasWidth ∧
    (scale pd sett x y s).1.canvasHeight = s.canvasHeight := by
  cases h : jsLt (.num 1) pd <;> simp [scale, h]

/-- Outcomes in which both backend constructions fail: the WebGL probe
reports support but the WebGL constructor throws, and the Canvas
constructor throws as well. -/
def bothFailOutcomes : BackendOutcomes :=
  { webglSupported := .ok true, webglCtor := .error (), canvasCtor := .error () }

/-- Claim C5 is contradicted by the code: when both backend constructions
fail, `api.init`'s `catch` block runs `console(e.message)` (line 262), which
itself throws because the global `console` is an object and not callable —
so initialization propagates a TypeError to the caller instead of returning
the boolean `false` promised by the comment on line 263. -/
theorem init_both_backends_fail_throws :
    initRendererPhase 2 bothFailOutcomes =
      .threw "TypeError: console is not a function" ∧
    ∀ b : Bool, initRendererPhase 2 bothFailOutcomes ≠ .ret b := by
  constructor
  · rfl
  · intro b
    cases b <;> decide

/-- Claim C6: renderer-selection fallback.  With a probe reporting WebGL
unsupported, the WebGL constructor is never attempted and a canvas surface
is returned; with a WebGL constructor that throws, the canvas backend is
constructed as fallback; with an explicit non-WebGL, non-auto renderer
request the GPU path is skipped entirely; and every selection call
constructs at most one backend — exactly one whenever a backend is
returned. -/
theorem backend_selection_fallback (o1 o2 : BackendOutcomes) (r : ℤ)
    (h1s : o1.webglSupported = .ok false) (h1c : o1.canvasCtor = .ok ())
    (h2s : o2.webglSupported = .ok true) (h2w : o2.webglCtor = .error ())
    (h2c : o2.canvasCtor = .ok ())
    (hr : r ≠ 2 ∧ r ≠ 1) :
    ((autoDetectRenderer o1).webglAttempted = false ∧
      (autoDetectRenderer o1).result = .ok .canvas) ∧
    ((autoDetectRenderer o2).result = .ok .canvas ∧
      (autoDetectRenderer o2).constructed = [.canvas]) ∧
    (∀ o : BackendOutcomes, (selectRenderer r o).webglAttempted = false) ∧
    (∀ (r2 : ℤ) (o : BackendOutcomes),
      (selectRenderer r2 o).constructed.length ≤ 1 ∧
      ∀ k, (selectRenderer r2 o).result = .ok k →
        (selectRenderer r2 o).constructed.length = 1) := by
  have hcc : ∀ (att : Bool) (o : BackendOutcomes),
      (canvasConstruct att o).constructed.length ≤ 1 ∧
      ∀ k, (canvasConstruct att o).result = .ok k →
        (canvasConstruct att o).constructed.length = 1 := by
    intro att o
    cases hc : o.canvasCtor <;> simp [canvasConstruct, hc]
  have had : ∀ o : BackendOutcomes,
      (autoDetectRenderer o).constructed.length ≤ 1 ∧
      ∀ k, (autoDetectRenderer o).result = .ok k →
        (autoDetectRenderer o).constructed.length = 1 := by
    intro o
    rcases hs : o.webglSupported with u | b
    · simpa [autoDetectRenderer, hs] using hcc false o
    · cases b
      · simpa [autoDetectRenderer, hs] using hcc false o
      · cases hw : o.webglCtor
        · simpa [autoDetectRenderer, hs, hw] using hcc true o
        · simp [autoDetectRenderer, hs, hw]
  refine ⟨?_, ?_, ?_, ?_⟩
  · simp [autoDetectRenderer, h1s, canvasConstruct, h1c]
  · simp [autoDetectRenderer, h2s, h2w, canvasConstruct, h2c]
  · intro o
    cases hc : o.canvasCtor <;>
      simp [selectRenderer, hr.1, hr.2, canvasConstruct, hc]
  · intro r2 o
    by_cases h2 : r2 = 2 ∨ r2 = 1
    · simpa [selectRenderer, h2] using had o
    · push_neg at h2
      simpa [selectRenderer, h2.1, h2.2] using hcc false o

/-- Witness instantiating `backend_selection_fallback` with concrete
outcomes: an unsupported probe, a throwing WebGL constructor with a working
canvas fallback, and an explicit `CANVAS` (0) renderer request. -/
theorem backend_selection_fallback_witness :
    ((autoDetectRenderer
        { webglSupported := .ok false, webglCtor := .ok (), canvasCtor := .ok () }).webglAttempted
        = false ∧
      (autoDetectRenderer
        { webglSupported := .ok false, webglCtor := .ok (), canvasCtor := .ok () }).result
        = .ok .canvas) ∧
    ((autoDetectRenderer
        { webglSupported := .ok true, webglCtor := .error (), canvasCtor := .ok () }).result
        = .ok .canvas ∧
      (autoDetectRenderer
        { webglSupported := .ok true, webglCtor := .error (), canvasCtor := .ok () }).constructed
        = [.canvas]) ∧
    (∀ o : BackendOutcomes, (selectRenderer 0 o).webglAttempted = false) ∧
    (∀ (r2 : ℤ) (o : BackendOutcomes),
      (selectRenderer r2 o).constructed.length ≤ 1 ∧
      ∀ k, (selectRenderer r2 o).result = .ok k →
        (selectRenderer r2 o).constructed.length = 1) :=
  backend_selection_fallback
    { webglSupported := .ok false, webglCtor := .ok (), canvasCtor := .ok () }
    { webglSupported := .ok true, webglCtor := .error (), canvasCtor := .ok () }
    0 rfl rfl rfl rfl rfl ⟨by decide, by decide⟩

/-- Claim C7: any scale-method string other than the seven recognized policy
names is silently normalized to `"fit"` by `api.init`; the normalization is
total and signals no error. -/
theorem invalid_scalemethod_normalized_fit (s : String)
    (h : s ∉ recognizedScaleMethods) :
    normalizeScaleMethod s = "fit" := by
  simp [normalizeScaleMethod, h]

/-- Witness instantiating `invalid_scalemethod_normalized_fit` at the
unrecognized string `"FIT"` (the test is case-sensitive). -/
theorem invalid_scalemethod_normalized_fit_witness :
    normalizeScaleMethod "FIT" = "fit" :=
  invalid_scalemethod_normalized_fit "FIT" (by decide)

/-- Claim C9: `api.setMaxSize` maps a zero (or NaN, both falsy) argument to
an `Infinity` bound *per argument*: a call with a falsy width and a truthy
height sets only `maxWidth` to `Infinity` and keeps the height argument as
`maxHeight` (first conjunct, a mixed call such as `setMaxSize(0, 768)`);
symmetrically a falsy height with an arbitrary width sets `maxHeight` to
`Infinity` (second conjunct); so `setMaxSize(0, 0)` removes both
display-size clamps entirely rather than clamping the display size to zero
(third conjunct); and every call — whatever its arguments — schedules one
deferred, non-forced resize (final conjunct). -/
theorem setMaxSize_falsy_unbounded_defer (w1 h1 w2 h2 : JSNum)
    (hw1 : w1 = .num 0 ∨ w1 = .nan)
    (hh1 : jsTruthy h1 = true)
    (hh2 : h2 = .num 0 ∨ h2 = .nan) :
    ((setMaxSize w1 h1).1.maxWidth = .posInf ∧
     (setMaxSize w1 h1).1.maxHeight = h1) ∧
    (setMaxSize w2 h2).1.maxHeight = .posInf ∧
    ((setMaxSize (.num 0) (.num 0)).1.maxWidth = .posInf ∧
     (setMaxSize (.num 0) (.num 0)).1.maxHeight = .posInf) ∧
    ∀ w h : JSNum, (setMaxSize w h).2 = [ScheduledCall.deferredOnresize false] := by
  refine ⟨⟨?_, ?_⟩, ?_, ⟨by decide, by decide⟩, fun w h => rfl⟩
  · rcases hw1 with hw | hw <;> simp [setMaxSize, hw, jsTruthy]
  · simp [setMaxSize, hh1]
  · rcases hh2 with hh | hh <;> simp [setMaxSize, hh, jsTruthy]

/-- Witness instantiating `setMaxSize_falsy_unbounded_defer` at the mixed
call `setMaxSize(0, 768)` — only `maxWidth` becomes `Infinity`, the height
clamp is kept at 768 — together with a NaN height under an ordinary width,
the `setMaxSize(0, 0)` clamp removal, and the scheduling conjunct. -/
theorem setMaxSize_falsy_unbounded_defer_witness :
    ((setMaxSize (.num 0) (.num 768)).1.maxWidth = .posInf ∧
     (setMaxSize (.num 0) (.num 768)).1.maxHeight = .num 768) ∧
    (setMaxSize (.num 1024) .nan).1.maxHeight = .posInf ∧
    ((setMaxSize (.num 0) (.num 0)).1.maxWidth = .posInf ∧
     (setMaxSize (.num 0) (.num 0)).1.maxHeight = .posInf) ∧
    ∀ w h : JSNum, (setMaxSize w h).2 = [ScheduledCall.deferredOnresize false] :=
  setMaxSize_falsy_unbounded_defer (.num 0) (.num 768) (.num 1024) .nan
    (Or.inl rfl) (by decide) (Or.inr rfl)

end MelonVideo
